import Mathlib

/-!
Shallow embedding of `superme_sdk/client.py` (class `SuperMeClient`).

The client holds connection configuration (username, key, base_url), an
optional JWT session token, and an optional configured OpenAI sub-client.
HTTP transports are passed in explicitly as functions; every operation
additionally returns the list of network events it issued, so that
"zero network calls" and "exactly one login request" are statable.
-/

/-- Python `s.rstrip("/")`: remove every trailing `'/'` character. -/
def rstripSlash (s : String) : String :=
  ⟨(s.data.reverse.dropWhile (fun c => c = '/')).reverse⟩

/-- Python truthiness of an `Optional[str]`: `None` and `""` are falsy. -/
def truthy : Option String → Bool
  | none => false
  | some s => s ≠ ""

/-- Python dict assignment `d[k] = v` on an association list: replace the
binding of `k` in place if present, otherwise append `(k, v)` at the end. -/
def dictSet (d : List (String × String)) (k v : String) :
    List (String × String) :=
  if (List.lookup k d).isSome then
    d.map (fun p => if p.1 = k then (k, v) else p)
  else
    d ++ [(k, v)]

/-- JSON body sent by `login()`: `{"username": ..., "password": ..., "client": "MCP"}`. -/
structure LoginBody where
  username : String
  password : String
  client : String
  deriving Repr, DecidableEq

/-- The HTTP response the login transport hands back: status code, raw body
text, and the parsed JSON object as a key/value list. -/
structure LoginHttpResponse where
  status_code : Nat
  text : String
  json : List (String × String)
  deriving Repr, DecidableEq

/-- Configuration of the nested OpenAI client created by a successful
login: `OpenAI(base_url=f"{self.base_url}/mcp", api_key=self._jwt_token)`. -/
structure OpenAICfg where
  cfg_base_url : String
  cfg_api_key : String
  deriving Repr, DecidableEq

/-- One chat message `{"role": ..., "content": ...}`. -/
structure ChatMessage where
  role : String
  content : String
  deriving Repr, DecidableEq

/-- The request payload of `chat.completions.create(...)` as built by
`ask` / `ask_with_history`. -/
structure ChatRequest where
  model : String
  messages : List ChatMessage
  extra_body : List (String × String)
  max_tokens : Nat
  deriving Repr, DecidableEq

/-- A chat completion response: the message of each choice, and the
optional `metadata` mapping (absent when the response object has no
`metadata` attribute). -/
structure ChatResponse where
  choices : List ChatMessage
  metadata : Option (List (String × String))

/-- A raw HTTP response as `requests` returns it: status, headers, body. -/
structure RawResponse where
  status_code : Nat
  headers : List (String × String)
  body : String
  deriving Repr, DecidableEq

/-- A network request the client issued. -/
inductive NetEvent where
  /-- `requests.post(f"{base_url}/login", json=...)`. -/
  | loginPost (url : String) (body : LoginBody)
  /-- `self.chat.completions.create(...)` with the given payload. -/
  | chatCreate (req : ChatRequest)
  /-- `requests.request(method, url, headers=headers, ...)`. -/
  | rawHttp (method : String) (url : String) (headers : List (String × String))
  deriving Repr, DecidableEq

/-- Errors the client raises. -/
inductive SdkError where
  /-- `Exception(f"Login failed with status {...}: {...}")`. -/
  | authenticationError (status : Nat) (body : String)
  /-- `KeyError`: `response.json()["backend_token"]` with the key absent. -/
  | keyError
  /-- `Exception("Not logged in. Call login() first.")`. -/
  | notAuthenticated
  /-- `IndexError`: `response.choices[0]` on an empty choices list. -/
  | indexError
  deriving Repr, DecidableEq

/-- Mutable state of a `SuperMeClient` instance. -/
structure ClientState where
  username : String
  key : String
  base_url : String
  jwt_token : Option String
  openai_client : Option OpenAICfg
  deriving Repr, DecidableEq

namespace SuperMeClient

/-- `SuperMeClient.login(self)`, with the `/login` transport's response
passed explicitly. Returns the result, the state after the call, and the
network events issued. -/
def login (st : ClientState) (resp : LoginHttpResponse) :
    Except SdkError String × ClientState × List NetEvent :=
  let ev := NetEvent.loginPost (st.base_url ++ "/login")
    ⟨st.username, st.key, "MCP"⟩
  if resp.status_code ≠ 200 then
    (.error (.authenticationError resp.status_code resp.text), st, [ev])
  else
    match List.lookup "backend_token" resp.json with
    | none => (.error .keyError, st, [ev])
    | some tok =>
        (.ok tok,
         { st with
             jwt_token := some tok,
             openai_client := some ⟨st.base_url ++ "/mcp", tok⟩ },
         [ev])

/-- `SuperMeClient.__init__(username, key, base_url, auto_login)`, with the
`/login` transport's response passed explicitly (used only when
`auto_login` is true). -/
def init (username key base_url : String) (auto_login : Bool)
    (resp : LoginHttpResponse) :
    Except SdkError ClientState × List NetEvent :=
  let st0 : ClientState :=
    ⟨username, key, rstripSlash base_url, none, none⟩
  if auto_login then
    match login st0 resp with
    | (.ok _, st1, evs) => (.ok st1, evs)
    | (.error e, _, evs) => (.error e, evs)
  else
    (.ok st0, [])

/-- The `chat` property: raises when `self._openai_client` is unset,
otherwise hands back the configured OpenAI chat interface. Issues no
network request itself. -/
def chat (st : ClientState) : Except SdkError OpenAICfg × List NetEvent :=
  match st.openai_client with
  | none => (.error .notAuthenticated, [])
  | some c => (.ok c, [])

/-- The `token` property. -/
def token (st : ClientState) : Option String :=
  st.jwt_token

/-- The `extra_body` dict built by both `ask` and `ask_with_history`:
`{"user": user_id}`, plus `conversation_id` when that argument is truthy. -/
def mkExtraBody (user_id : String) (conversation_id : Option String) :
    List (String × String) :=
  if truthy conversation_id then
    [("user", user_id), ("conversation_id", conversation_id.getD "")]
  else
    [("user", user_id)]

/-- `SuperMeClient.ask(question, user_id, conversation_id, max_tokens)`,
with the chat-completions transport passed explicitly. -/
def ask (st : ClientState) (question : String) (user_id : String)
    (conversation_id : Option String) (max_tokens : Nat)
    (transport : ChatRequest → ChatResponse) :
    Except SdkError String × List NetEvent :=
  match chat st with
  | (.error e, _) => (.error e, [])
  | (.ok _, _) =>
      let req : ChatRequest :=
        ⟨"gpt-4", [⟨"user", question⟩],
         mkExtraBody user_id conversation_id, max_tokens⟩
      let resp := transport req
      match resp.choices.head? with
      | none => (.error .indexError, [NetEvent.chatCreate req])
      | some m => (.ok m.content, [NetEvent.chatCreate req])

/-- `SuperMeClient.ask_with_history(messages, user_id, conversation_id,
max_tokens)`, with the chat-completions transport passed explicitly.
Returns `(response_text, conversation_id-from-metadata)`. -/
def ask_with_history (st : ClientState) (messages : List ChatMessage)
    (user_id : String) (conversation_id : Option String) (max_tokens : Nat)
    (transport : ChatRequest → ChatResponse) :
    Except SdkError (String × Option String) × List NetEvent :=
  match chat st with
  | (.error e, _) => (.error e, [])
  | (.ok _, _) =>
      let req : ChatRequest :=
        ⟨"gpt-4", messages, mkExtraBody user_id conversation_id, max_tokens⟩
      let resp := transport req
      match resp.choices.head? with
      | none => (.error .indexError, [NetEvent.chatCreate req])
      | some m =>
          let response_conv_id :=
            match resp.metadata with
            | some meta => List.lookup "conversation_id" meta
            | none => none
          (.ok (m.content, response_conv_id), [NetEvent.chatCreate req])

/-- `SuperMeClient.raw_request(endpoint, method, headers=...)`, with the
HTTP transport passed explicitly. On success the transport's response is
returned to the caller unmodified, whatever its status. -/
def raw_request (st : ClientState) (endpoint : String) (method : String)
    (headers : List (String × String))
    (transport : String → String → List (String × String) → RawResponse) :
    Except SdkError RawResponse × List NetEvent :=
  if truthy st.jwt_token = false then
    (.error .notAuthenticated, [])
  else
    let tok := st.jwt_token.getD ""
    let hs := dictSet headers "Authorization" ("Bearer " ++ tok)
    let url := st.base_url ++ endpoint
    (.ok (transport method url hs), [NetEvent.rawHttp method url hs])

end SuperMeClient

/-- Credential variant of the spec's unified constructor:
`{ApiKey(string) | UsernamePassword(string,string)}`. -/
inductive Credential where
  | apiKey (key : String)
  | usernameKey (username key : String)
  deriving Repr, DecidableEq

/-- Modelled from the spec: the API-key construction mode (mode A) is
absent from `src/` — `src/superme_sdk/client.py` has only the
username/key constructor, while the examples call `SuperMeClient(api_key=...)`.
Following the spec, mode A stores the api_key directly as the bearer
session token, configures the chat sub-client with it, and performs no
login step; mode B delegates to the constructor embedded from the source. -/
def unifiedInit (cred : Credential) (base_url : String) (auto_login : Bool)
    (resp : LoginHttpResponse) :
    Except SdkError ClientState × List NetEvent :=
  match cred with
  | .apiKey k =>
      (.ok ⟨"", k, rstripSlash base_url, some k,
            some ⟨rstripSlash base_url ++ "/mcp", k⟩⟩, [])
  | .usernameKey u k => SuperMeClient.init u k base_url auto_login resp

/-- Whether a network event is a login request. -/
def NetEvent.isLogin : NetEvent → Bool
  | .loginPost _ _ => true
  | _ => false

/-! ## Helper lemmas -/

/-- `login()` always issues exactly the one POST to `base_url ++ "/login"`
with body `{username, password := key, client := "MCP"}`. -/
theorem login_events (st : ClientState) (resp : LoginHttpResponse) :
    (SuperMeClient.login st resp).2.2 =
      [NetEvent.loginPost (st.base_url ++ "/login") ⟨st.username, st.key, "MCP"⟩] := by
  unfold SuperMeClient.login
  split
  · rfl
  · split <;> rfl

theorem rstripSlash_append_slash (s : String) :
    rstripSlash (s ++ "/") = rstripSlash s := by
  unfold rstripSlash
  have h : (s ++ "/").data = s.data ++ ['/'] := by
    simp [String.data_append]
  rw [h]
  simp

/-! ## Claim theorems -/

/-- C2: for every `/login` response with status other than 200, `login()`
raises an error carrying the status code and the body text, and the whole
client state — in particular the stored session token — is unchanged. -/
theorem C2_login_non200_atomic (st : ClientState) (resp : LoginHttpResponse)
    (h : resp.status_code ≠ 200) :
    (SuperMeClient.login st resp).1 =
      .error (.authenticationError resp.status_code resp.text)
    ∧ (SuperMeClient.login st resp).2.1 = st := by
  unfold SuperMeClient.login
  simp [h]

/-- Witness for C2 at a concrete 401 response, with a prior token stored. -/
theorem C2_login_non200_atomic_witness :
    (SuperMeClient.login ⟨"u", "k", "https://api.superme.ai", some "old", none⟩
        ⟨401, "denied", []⟩).1 =
      .error (.authenticationError 401 "denied")
    ∧ (SuperMeClient.login ⟨"u", "k", "https://api.superme.ai", some "old", none⟩
        ⟨401, "denied", []⟩).2.1 =
      ⟨"u", "k", "https://api.superme.ai", some "old", none⟩ :=
  C2_login_non200_atomic _ _ (by decide)

/-- C3: every `login()` call sends exactly one POST to
`base_url ++ "/login"` with JSON body `{username, password := key,
client := "MCP"}`; when the response has status 200 and carries a
`backend_token` field, that token is returned and stored as the session
token, overwriting any previously stored one. -/
theorem C3_login_request_and_store (st : ClientState)
    (resp : LoginHttpResponse) (tok : String)
    (h200 : resp.status_code = 200)
    (htok : List.lookup "backend_token" resp.json = some tok) :
    (SuperMeClient.login st resp).2.2 =
      [NetEvent.loginPost (st.base_url ++ "/login") ⟨st.username, st.key, "MCP"⟩]
    ∧ (SuperMeClient.login st resp).1 = .ok tok
    ∧ ((SuperMeClient.login st resp).2.1).jwt_token = some tok := by
  refine ⟨login_events st resp, ?_⟩
  unfold SuperMeClient.login
  simp [h200, htok]

/-- Witness for C3 at a concrete 200 response, overwriting a prior token. -/
theorem C3_login_request_and_store_witness :
    (SuperMeClient.login ⟨"u", "k", "https://api.superme.ai", some "old", none⟩
        ⟨200, "", [("backend_token", "t2")]⟩).2.2 =
      [NetEvent.loginPost "https://api.superme.ai/login" ⟨"u", "k", "MCP"⟩]
    ∧ (SuperMeClient.login ⟨"u", "k", "https://api.superme.ai", some "old", none⟩
        ⟨200, "", [("backend_token", "t2")]⟩).1 = .ok "t2"
    ∧ ((SuperMeClient.login ⟨"u", "k", "https://api.superme.ai", some "old", none⟩
        ⟨200, "", [("backend_token", "t2")]⟩).2.1).jwt_token = some "t2" :=
  C3_login_request_and_store _ _ "t2" rfl (by decide)

/-- C1: constructing in API-key mode succeeds, issues no network request
at all (in particular no login request), and stores the api_key directly
as the session bearer token and as the chat sub-client's credential;
constructing in username/key mode with `auto_login = true` issues exactly
the one login request during construction, whatever the response. -/
theorem C1_construction_modes (k u key base_url : String) (auto_login : Bool)
    (resp : LoginHttpResponse) :
    unifiedInit (.apiKey k) base_url auto_login resp =
      (.ok ⟨"", k, rstripSlash base_url, some k,
            some ⟨rstripSlash base_url ++ "/mcp", k⟩⟩, [])
    ∧ (unifiedInit (.usernameKey u key) base_url true resp).2 =
        [NetEvent.loginPost (rstripSlash base_url ++ "/login") ⟨u, key, "MCP"⟩] := by
  refine ⟨rfl, ?_⟩
  have h := login_events ⟨u, key, rstripSlash base_url, none, none⟩ resp
  simp only [unifiedInit, SuperMeClient.init, if_true]
  rcases hL : SuperMeClient.login ⟨u, key, rstripSlash base_url, none, none⟩ resp
    with ⟨r, st1, evs⟩
  rw [hL] at h
  cases r <;> simpa using h

/-- C4: a client constructed in username/key mode with `auto_login = false`
holds no token and no chat sub-client, so the `chat` accessor, `ask`,
`ask_with_history` and `raw_request` all fail with the not-logged-in
error and issue zero network events. -/
theorem C4_unauthenticated_ops_fail (u k base_url : String)
    (resp : LoginHttpResponse)
    (endpoint method : String) (headers : List (String × String))
    (rt : String → String → List (String × String) → RawResponse)
    (q user_id : String) (c : Option String) (mt : Nat)
    (ct : ChatRequest → ChatResponse) (msgs : List ChatMessage) :
    SuperMeClient.init u k base_url false resp =
      (.ok ⟨u, k, rstripSlash base_url, none, none⟩, [])
    ∧ SuperMeClient.chat ⟨u, k, rstripSlash base_url, none, none⟩ =
        (.error .notAuthenticated, [])
    ∧ SuperMeClient.raw_request ⟨u, k, rstripSlash base_url, none, none⟩
        endpoint method headers rt = (.error .notAuthenticated, [])
    ∧ SuperMeClient.ask ⟨u, k, rstripSlash base_url, none, none⟩
        q user_id c mt ct = (.error .notAuthenticated, [])
    ∧ SuperMeClient.ask_with_history ⟨u, k, rstripSlash base_url, none, none⟩
        msgs user_id c mt ct = (.error .notAuthenticated, []) :=
  ⟨rfl, rfl, rfl, rfl, rfl⟩

/-- C9: construction strips trailing slashes from `base_url`, so a client
constructed with `url ++ "/"` is identical — same configuration, same
login URL, same outcome — to one constructed with `url`. -/
theorem C9_trailing_slash_irrelevant (u k url : String) (auto_login : Bool)
    (resp : LoginHttpResponse) :
    SuperMeClient.init u k (url ++ "/") auto_login resp =
      SuperMeClient.init u k url auto_login resp := by
  unfold SuperMeClient.init
  rw [rstripSlash_append_slash]

theorem lookup_map_replace (d : List (String × String)) (k v : String)
    (h : (List.lookup k d).isSome) :
    List.lookup k (d.map (fun p => if p.1 = k then (k, v) else p)) = some v := by
  induction d with
  | nil => simp [List.lookup] at h
  | cons p d ih =>
      obtain ⟨a, b⟩ := p
      by_cases hp : a = k
      · subst hp
        simp [List.lookup_cons]
      · have hb : (k == a) = false := by
          simp [Ne.symm hp]
        have hhead : (if (a, b).1 = k then (k, v) else (a, b)) = (a, b) :=
          if_neg hp
        rw [List.map_cons, hhead, List.lookup_cons, hb]
        rw [List.lookup_cons, hb] at h
        exact ih h

theorem lookup_map_replace_other (d : List (String × String)) (k v q : String)
    (hq : q ≠ k) :
    List.lookup q (d.map (fun p => if p.1 = k then (k, v) else p)) =
      List.lookup q d := by
  induction d with
  | nil => rfl
  | cons p d ih =>
      obtain ⟨a, b⟩ := p
      by_cases hp : a = k
      · subst hp
        have hb : (q == a) = false := by
          simp [hq]
        have hhead : (if (a, b).1 = a then (a, v) else (a, b)) = (a, v) :=
          if_pos rfl
        rw [List.map_cons, hhead, List.lookup_cons, List.lookup_cons, hb, ih]
      · have hhead : (if (a, b).1 = k then (k, v) else (a, b)) = (a, b) :=
          if_neg hp
        rw [List.map_cons, hhead, List.lookup_cons, List.lookup_cons, ih]

theorem lookup_append_single (d : List (String × String)) (k v : String)
    (h : List.lookup k d = none) :
    List.lookup k (d ++ [(k, v)]) = some v := by
  induction d with
  | nil => simp [List.lookup_cons]
  | cons p d ih =>
      obtain ⟨a, b⟩ := p
      rw [List.lookup_cons] at h
      rw [List.cons_append, List.lookup_cons]
      cases hb : (k == a) with
      | true => rw [hb] at h; simp at h
      | false => rw [hb] at h; exact ih h

theorem lookup_append_single_other (d : List (String × String)) (k v q : String)
    (hq : q ≠ k) :
    List.lookup q (d ++ [(k, v)]) = List.lookup q d := by
  induction d with
  | nil =>
      have hb : (q == k) = false := by
        simp [hq]
      simp [List.lookup_cons, hb]
  | cons p d ih =>
      obtain ⟨a, b⟩ := p
      rw [List.cons_append, List.lookup_cons, List.lookup_cons, ih]

theorem lookup_dictSet_self (d : List (String × String)) (k v : String) :
    List.lookup k (dictSet d k v) = some v := by
  unfold dictSet
  split
  · exact lookup_map_replace d k v (by assumption)
  · refine lookup_append_single d k v ?_
    rename_i h
    exact Option.not_isSome_iff_eq_none.mp h

/-- Dict assignment leaves every other key's binding unchanged. -/
theorem lookup_dictSet_other (d : List (String × String)) (k v q : String)
    (hq : q ≠ k) :
    List.lookup q (dictSet d k v) = List.lookup q d := by
  unfold dictSet
  split
  · exact lookup_map_replace_other d k v q hq
  · exact lookup_append_single_other d k v q hq

/-- A concrete logged-in client state used by the concrete instances. -/
def stAuth : ClientState :=
  ⟨"u", "k", "https://api.superme.ai", some "tok",
   some ⟨"https://api.superme.ai/mcp", "tok"⟩⟩

/-- A concrete chat transport whose answer has one choice and a metadata
mapping carrying a server conversation id. -/
def demoTransport : ChatRequest → ChatResponse :=
  fun _ => ⟨[⟨"assistant", "A"⟩], some [("conversation_id", "srv")]⟩

/-- A concrete raw HTTP transport answering 500 on every request. -/
def rawTransport500 : String → String → List (String × String) → RawResponse :=
  fun _ _ _ => ⟨500, [], "err"⟩

/-- C7: with a session token stored, `raw_request` issues one request to
`base_url ++ endpoint` whose headers are the caller's with
`Authorization: Bearer <token>` set, and returns the transport's response
object unmodified — for every transport, hence also for non-200
responses, which are returned rather than raised. -/
theorem C7_raw_request_passthrough (st : ClientState) (tok : String)
    (htok : st.jwt_token = some tok) (hne : tok ≠ "")
    (endpoint method : String) (headers : List (String × String))
    (transport : String → String → List (String × String) → RawResponse) :
    SuperMeClient.raw_request st endpoint method headers transport =
      (.ok (transport method (st.base_url ++ endpoint)
              (dictSet headers "Authorization" ("Bearer " ++ tok))),
       [NetEvent.rawHttp method (st.base_url ++ endpoint)
          (dictSet headers "Authorization" ("Bearer " ++ tok))])
    ∧ List.lookup "Authorization"
        (dictSet headers "Authorization" ("Bearer " ++ tok)) =
        some ("Bearer " ++ tok) := by
  refine ⟨?_, lookup_dictSet_self _ _ _⟩
  unfold SuperMeClient.raw_request
  rw [htok]
  simp [truthy, hne]

/-- Witness for C7: a 500 response is handed back as a normal response. -/
theorem C7_raw_request_passthrough_witness :
    SuperMeClient.raw_request stAuth "/mcp" "POST" [("X-Debug", "1")]
        rawTransport500 =
      (.ok (rawTransport500 "POST" (stAuth.base_url ++ "/mcp")
              (dictSet [("X-Debug", "1")] "Authorization" ("Bearer " ++ "tok"))),
       [NetEvent.rawHttp "POST" (stAuth.base_url ++ "/mcp")
          (dictSet [("X-Debug", "1")] "Authorization" ("Bearer " ++ "tok"))])
    ∧ List.lookup "Authorization"
        (dictSet [("X-Debug", "1")] "Authorization" ("Bearer " ++ "tok")) =
        some ("Bearer " ++ "tok") :=
  C7_raw_request_passthrough stAuth "tok" rfl (by decide) "/mcp" "POST"
    [("X-Debug", "1")] rawTransport500

/-- C10: the issued request's `Authorization` header is always
`Bearer <stored token>`, whatever the caller supplied under that key,
while every other caller-supplied header is forwarded unchanged. -/
theorem C10_authorization_overwritten (st : ClientState) (tok : String)
    (htok : st.jwt_token = some tok) (hne : tok ≠ "")
    (endpoint method : String) (headers : List (String × String))
    (transport : String → String → List (String × String) → RawResponse)
    (q : String) (hq : q ≠ "Authorization") :
    (SuperMeClient.raw_request st endpoint method headers transport).2 =
      [NetEvent.rawHttp method (st.base_url ++ endpoint)
        (dictSet headers "Authorization" ("Bearer " ++ tok))]
    ∧ List.lookup "Authorization"
        (dictSet headers "Authorization" ("Bearer " ++ tok)) =
        some ("Bearer " ++ tok)
    ∧ List.lookup q (dictSet headers "Authorization" ("Bearer " ++ tok)) =
        List.lookup q headers := by
  refine ⟨?_, lookup_dictSet_self _ _ _, lookup_dictSet_other _ _ _ _ hq⟩
  unfold SuperMeClient.raw_request
  rw [htok]
  simp [truthy, hne]

/-- Witness for C10: a caller-supplied `Authorization: Bearer evil` is
replaced by the stored token; the other header is kept. -/
theorem C10_authorization_overwritten_witness :
    (SuperMeClient.raw_request stAuth "/mcp" "POST"
        [("Authorization", "Bearer evil"), ("X-Debug", "1")]
        rawTransport500).2 =
      [NetEvent.rawHttp "POST" (stAuth.base_url ++ "/mcp")
        (dictSet [("Authorization", "Bearer evil"), ("X-Debug", "1")]
          "Authorization" ("Bearer " ++ "tok"))]
    ∧ List.lookup "Authorization"
        (dictSet [("Authorization", "Bearer evil"), ("X-Debug", "1")]
          "Authorization" ("Bearer " ++ "tok")) =
        some ("Bearer " ++ "tok")
    ∧ List.lookup "X-Debug"
        (dictSet [("Authorization", "Bearer evil"), ("X-Debug", "1")]
          "Authorization" ("Bearer " ++ "tok")) =
        List.lookup "X-Debug" [("Authorization", "Bearer evil"), ("X-Debug", "1")] :=
  C10_authorization_overwritten stAuth "tok" rfl (by decide) "/mcp" "POST"
    [("Authorization", "Bearer evil"), ("X-Debug", "1")] rawTransport500
    "X-Debug" (by decide)

/-- The spec's description of the conversation id returned by
`ask_with_history`: read from the response metadata mapping when that
mapping is present, else absent. -/
def metaConversationId (r : ChatResponse) : Option String :=
  match r.metadata with
  | some meta => List.lookup "conversation_id" meta
  | none => none

/-- C5 counterexample: with `conversation_id = some ""` provided, the
issued request's extra parameters are just `{"user": "42"}` — no
`conversation_id` key — because the code tests Python truthiness
(`if conversation_id:`), under which `""` counts as absent. -/
theorem C5_counterexample :
    (SuperMeClient.ask stAuth "Q" "42" (some "") 1000 demoTransport).2 =
      [NetEvent.chatCreate ⟨"gpt-4", [⟨"user", "Q"⟩], [("user", "42")], 1000⟩]
    ∧ List.lookup "conversation_id" [("user", "42")] = none :=
  ⟨rfl, rfl⟩

/-- C5 (amended): `ask(q, user_id)` issues exactly one chat-completion
request, with messages `[{role := "user", content := q}]`, extra
parameters carrying `user := user_id` — plus `conversation_id` whenever a
non-empty one is provided — and returns the first choice's message
content. -/
theorem C5_ask_request_shape (st : ClientState) (cfg : OpenAICfg)
    (hauth : st.openai_client = some cfg)
    (q user_id : String) (c : Option String) (mt : Nat)
    (transport : ChatRequest → ChatResponse)
    (m : ChatMessage) (rest : List ChatMessage)
    (hresp : (transport ⟨"gpt-4", [⟨"user", q⟩],
        SuperMeClient.mkExtraBody user_id c, mt⟩).choices = m :: rest) :
    (SuperMeClient.ask st q user_id c mt transport).2 =
      [NetEvent.chatCreate ⟨"gpt-4", [⟨"user", q⟩],
        SuperMeClient.mkExtraBody user_id c, mt⟩]
    ∧ List.lookup "user" (SuperMeClient.mkExtraBody user_id c) = some user_id
    ∧ (∀ cid : String, c = some cid → cid ≠ "" →
        List.lookup "conversation_id" (SuperMeClient.mkExtraBody user_id c) =
          some cid)
    ∧ (SuperMeClient.ask st q user_id c mt transport).1 = .ok m.content := by
  have hchat : SuperMeClient.chat st = (.ok cfg, []) := by
    unfold SuperMeClient.chat
    rw [hauth]
  have hask : SuperMeClient.ask st q user_id c mt transport =
      (.ok m.content, [NetEvent.chatCreate ⟨"gpt-4", [⟨"user", q⟩],
        SuperMeClient.mkExtraBody user_id c, mt⟩]) := by
    unfold SuperMeClient.ask
    rw [hchat]
    simp only [hresp, List.head?]
  refine ⟨by rw [hask], ?_, ?_, by rw [hask]⟩
  · unfold SuperMeClient.mkExtraBody
    split <;> simp [List.lookup_cons]
  · intro cid hc hne
    subst hc
    simp [SuperMeClient.mkExtraBody, truthy, hne, List.lookup_cons]

/-- Witness for C5 (amended) at concrete inputs with a non-empty
conversation id. -/
theorem C5_ask_request_shape_witness :
    (SuperMeClient.ask stAuth "Q" "42" (some "abc") 1000 demoTransport).2 =
      [NetEvent.chatCreate ⟨"gpt-4", [⟨"user", "Q"⟩],
        SuperMeClient.mkExtraBody "42" (some "abc"), 1000⟩]
    ∧ List.lookup "user" (SuperMeClient.mkExtraBody "42" (some "abc")) =
        some "42"
    ∧ (∀ cid : String, some "abc" = some cid → cid ≠ "" →
        List.lookup "conversation_id"
          (SuperMeClient.mkExtraBody "42" (some "abc")) = some cid)
    ∧ (SuperMeClient.ask stAuth "Q" "42" (some "abc") 1000 demoTransport).1 =
        .ok (ChatMessage.mk "assistant" "A").content :=
  C5_ask_request_shape stAuth ⟨"https://api.superme.ai/mcp", "tok"⟩ rfl "Q" "42"
    (some "abc") 1000 demoTransport ⟨"assistant", "A"⟩ [] rfl

/-- C6 counterexample: with `conversation_id = some ""` provided, the
issued request carries no `conversation_id` extra parameter, again by
Python truthiness. -/
theorem C6_counterexample :
    (SuperMeClient.ask_with_history stAuth [⟨"user", "hi"⟩] "1" (some "") 1000
        demoTransport).2 =
      [NetEvent.chatCreate ⟨"gpt-4", [⟨"user", "hi"⟩], [("user", "1")], 1000⟩]
    ∧ List.lookup "conversation_id" [("user", "1")] = none :=
  ⟨rfl, rfl⟩

/-- C6 (amended): for every non-empty provided conversation id,
`ask_with_history` forwards the caller's messages unmodified, includes
`conversation_id` in the extra parameters, and returns the pair of the
first choice's content and the conversation id read from the response
metadata mapping when present (absent otherwise). -/
theorem C6_ask_with_history_forwarding (st : ClientState) (cfg : OpenAICfg)
    (hauth : st.openai_client = some cfg)
    (msgs : List ChatMessage) (user_id cid : String) (hne : cid ≠ "")
    (mt : Nat) (transport : ChatRequest → ChatResponse)
    (m : ChatMessage) (rest : List ChatMessage)
    (hresp : (transport ⟨"gpt-4", msgs,
        SuperMeClient.mkExtraBody user_id (some cid), mt⟩).choices = m :: rest) :
    (SuperMeClient.ask_with_history st msgs user_id (some cid) mt transport).2 =
      [NetEvent.chatCreate ⟨"gpt-4", msgs,
        SuperMeClient.mkExtraBody user_id (some cid), mt⟩]
    ∧ List.lookup "conversation_id"
        (SuperMeClient.mkExtraBody user_id (some cid)) = some cid
    ∧ (SuperMeClient.ask_with_history st msgs user_id (some cid) mt transport).1 =
        .ok (m.content, metaConversationId (transport ⟨"gpt-4", msgs,
          SuperMeClient.mkExtraBody user_id (some cid), mt⟩)) := by
  have hchat : SuperMeClient.chat st = (.ok cfg, []) := by
    unfold SuperMeClient.chat
    rw [hauth]
  have hrun : SuperMeClient.ask_with_history st msgs user_id (some cid) mt
      transport =
      (.ok (m.content, metaConversationId (transport ⟨"gpt-4", msgs,
          SuperMeClient.mkExtraBody user_id (some cid), mt⟩)),
       [NetEvent.chatCreate ⟨"gpt-4", msgs,
         SuperMeClient.mkExtraBody user_id (some cid), mt⟩]) := by
    unfold SuperMeClient.ask_with_history metaConversationId
    rw [hchat]
    simp only [hresp, List.head?]
  refine ⟨by rw [hrun], ?_, by rw [hrun]⟩
  simp [SuperMeClient.mkExtraBody, truthy, hne, List.lookup_cons]

/-- Witness for C6 (amended) at concrete inputs; the demo response's
metadata carries conversation id `"srv"`. -/
theorem C6_ask_with_history_forwarding_witness :
    (SuperMeClient.ask_with_history stAuth [⟨"user", "hi"⟩] "1" (some "abc")
        1000 demoTransport).2 =
      [NetEvent.chatCreate ⟨"gpt-4", [⟨"user", "hi"⟩],
        SuperMeClient.mkExtraBody "1" (some "abc"), 1000⟩]
    ∧ List.lookup "conversation_id"
        (SuperMeClient.mkExtraBody "1" (some "abc")) = some "abc"
    ∧ (SuperMeClient.ask_with_history stAuth [⟨"user", "hi"⟩] "1" (some "abc")
        1000 demoTransport).1 =
        .ok ((ChatMessage.mk "assistant" "A").content,
          metaConversationId (demoTransport ⟨"gpt-4", [⟨"user", "hi"⟩],
            SuperMeClient.mkExtraBody "1" (some "abc"), 1000⟩)) :=
  C6_ask_with_history_forwarding stAuth ⟨"https://api.superme.ai/mcp", "tok"⟩
    rfl [⟨"user", "hi"⟩] "1" "abc" (by decide) 1000 demoTransport
    ⟨"assistant", "A"⟩ [] rfl

/-- One client operation, as invoked by a caller. -/
inductive Op where
  | opLogin (resp : LoginHttpResponse)
  | opChat
  | opAsk (q uid : String) (c : Option String) (mt : Nat)
      (t : ChatRequest → ChatResponse)
  | opAskWithHistory (msgs : List ChatMessage) (uid : String)
      (c : Option String) (mt : Nat) (t : ChatRequest → ChatResponse)
  | opRawRequest (endpoint method : String)
      (headers : List (String × String))
      (t : String → String → List (String × String) → RawResponse)

/-- The client state after one operation. Only `login` assigns to the
instance's fields; `chat`, `ask`, `ask_with_history` and `raw_request`
contain no assignment to `self` and leave the state as it was. -/
def step (st : ClientState) : Op → ClientState
  | .opLogin resp => (SuperMeClient.login st resp).2.1
  | .opChat => st
  | .opAsk _ _ _ _ _ => st
  | .opAskWithHistory _ _ _ _ _ => st
  | .opRawRequest _ _ _ _ => st

/-- The client state after a sequence of operations. -/
def run (st : ClientState) : List Op → ClientState
  | [] => st
  | op :: ops => run (step st op) ops

theorem step_preserves_credentials (st : ClientState) (op : Op) :
    (step st op).username = st.username ∧ (step st op).key = st.key ∧
      (step st op).base_url = st.base_url := by
  cases op with
  | opLogin resp =>
      simp only [step]
      unfold SuperMeClient.login
      split
      · exact ⟨rfl, rfl, rfl⟩
      · split <;> exact ⟨rfl, rfl, rfl⟩
  | opChat => exact ⟨rfl, rfl, rfl⟩
  | opAsk q uid c mt t => exact ⟨rfl, rfl, rfl⟩
  | opAskWithHistory msgs uid c mt t => exact ⟨rfl, rfl, rfl⟩
  | opRawRequest e m h t => exact ⟨rfl, rfl, rfl⟩

/-- C8: across every sequence of operations the credential material and
base URL set at construction are never mutated, and a single operation
changes the session token only when it is a successful login — in which
case the token is set in full to the token that login returned. -/
theorem C8_credentials_immutable_token_only_by_login :
    (∀ (st : ClientState) (ops : List Op),
      (run st ops).username = st.username ∧ (run st ops).key = st.key ∧
        (run st ops).base_url = st.base_url)
    ∧ (∀ (st : ClientState) (op : Op),
        (step st op).jwt_token = st.jwt_token ∨
        ∃ resp tok, op = Op.opLogin resp ∧ resp.status_code = 200 ∧
          List.lookup "backend_token" resp.json = some tok ∧
          (SuperMeClient.login st resp).1 = .ok tok ∧
          (step st op).jwt_token = some tok) := by
  constructor
  · intro st ops
    induction ops generalizing st with
    | nil => exact ⟨rfl, rfl, rfl⟩
    | cons op ops ih =>
        have h := step_preserves_credentials st op
        have h2 := ih (step st op)
        exact ⟨h2.1.trans h.1, h2.2.1.trans h.2.1, h2.2.2.trans h.2.2⟩
  · intro st op
    cases op with
    | opLogin resp =>
        by_cases h200 : resp.status_code = 200
        · cases htok : List.lookup "backend_token" resp.json with
          | none =>
              left
              simp [step, SuperMeClient.login, h200, htok]
          | some tok =>
              right
              refine ⟨resp, tok, rfl, h200, htok, ?_, ?_⟩
              · simp [SuperMeClient.login, h200, htok]
              · simp [step, SuperMeClient.login, h200, htok]
        · left
          simp [step, SuperMeClient.login, h200]
    | opChat => exact Or.inl rfl
    | opAsk q uid c mt t => exact Or.inl rfl
    | opAskWithHistory msgs uid c mt t => exact Or.inl rfl
    | opRawRequest e m h t => exact Or.inl rfl
